import Mathlib

/-!
Verification of `tf2onnx/rewriter/rnn_utils.py` (tensorflow-onnx RNN rewriter
support), shallowly embedded in Lean 4.

Graph nodes are modelled as finite trees: each node carries its operation-type
tag, its name, the ordered list of its input producers, an optional embedded
constant tensor (values as integers) and an ONNX dtype code.  Fallible Python
operations (list indexing, `get_tensor_value` on a non-constant node, dict
lookup, `raise ValueError`) are modelled in the `Except PyErr` monad.
-/

/-- Failure modes of the embedded Python code. -/
inductive PyErr where
  /-- An explicit `raise ValueError(msg)`. -/
  | valueError (msg : String) : PyErr
  /-- List indexing out of range (`node.inputs[i]`). -/
  | indexError : PyErr
  /-- Failure of `get_tensor_value` on a node with no embedded tensor. -/
  | tensorError : PyErr
  /-- Dictionary lookup with a missing key (`ONNX_TO_NUMPY_DTYPE[...]`). -/
  | keyError : PyErr
deriving DecidableEq, Repr

/-- A dataflow-graph node: operation-type tag, name, ordered input producers,
optional embedded constant tensor, ONNX dtype code.  Modelling nodes as trees
is faithful for the functions below, which only ever walk input edges of an
acyclic graph. -/
inductive Node where
  | mk (type : String) (name : String) (inputs : List Node)
      (tensor : Option (List ℤ)) (dtypeCode : Nat) : Node

/-- Operation-type tag of the node (`node.type`). -/
def Node.type : Node → String
  | .mk t _ _ _ _ => t

/-- Name of the node (`node.name`). -/
def Node.name : Node → String
  | .mk _ nm _ _ _ => nm

/-- Ordered list of input producers of the node (`node.inputs`). -/
def Node.inputs : Node → List Node
  | .mk _ _ ins _ _ => ins

/-- Embedded constant tensor of the node, when it has one. -/
def Node.tensor : Node → Option (List ℤ)
  | .mk _ _ _ tv _ => tv

/-- Declared ONNX element-type code of the node (`node.dtype`). -/
def Node.dtypeCode : Node → Nat
  | .mk _ _ _ _ d => d

/-- Python `node.inputs[i]`: raises `IndexError` when out of range. -/
def Node.getInput (n : Node) (i : Nat) : Except PyErr Node :=
  match n.inputs.get? i with
  | some m => .ok m
  | none => .error .indexError

/-- Modelled from the spec: `node.get_tensor_value()` (defined in
`tf2onnx/graph.py`, outside the provided sources) returns the embedded
constant tensor of a constant-producing node and fails on any other node
("for constant-producing nodes, an embedded constant tensor"). -/
def Node.get_tensor_value (n : Node) : Except PyErr (List ℤ) :=
  match n.tensor with
  | some v => .ok v
  | none => .error .tensorError

/-- Modelled from the spec: `node.is_const()` (defined in `tf2onnx/graph.py`,
outside the provided sources) tests whether the node is a constant-bearing
node; the resolver in `rnn_utils.py` identifies those by the `"Const"`
operation-type tag. -/
def Node.is_const (n : Node) : Bool :=
  n.type == "Const"

/-- Modelled from the spec: the fixed ONNX-to-numpy type-mapping table
`utils.ONNX_TO_NUMPY_DTYPE` (defined in `tf2onnx/utils.py`, outside the
provided sources), keyed by the ONNX `TensorProto` element-type codes. -/
def ONNX_TO_NUMPY_DTYPE : List (Nat × String) :=
  [(1, "float32"), (2, "uint8"), (3, "int8"), (4, "uint16"), (5, "int16"),
   (6, "int32"), (7, "int64"), (10, "float16"), (11, "float64")]

/-- Python dict indexing `ONNX_TO_NUMPY_DTYPE[code]`: `KeyError` if absent. -/
def onnxToNumpyDtype (code : Nat) : Except PyErr String :=
  match ONNX_TO_NUMPY_DTYPE.lookup code with
  | some s => .ok s
  | none => .error .keyError

/-- Embeds the while-loop of `get_weights_from_const_node` (repeatedly
replacing `temp` by `temp.inputs[0]`): follow pass-through Identity nodes to the
first non-Identity producer.  An Identity node with no inputs raises
`IndexError` in Python. -/
def follow_identity : Node → Except PyErr Node
  | .mk t nm ins tv d =>
    if t = "Identity" then
      match ins with
      | [] => .error .indexError
      | i :: _ => follow_identity i
    else
      .ok (.mk t nm ins tv d)

/-- The result object `RnnWeight(node, np_val, np_dtype)`. -/
structure RnnWeight where
  node : Node
  value : List ℤ
  dtype : String

/-- Embeds `get_weights_from_const_node(node)`: follow the Identity chain; if the
producer found is a `Const`, return `RnnWeight(node, val, dtype)` with `val`
the tensor value of the producer and `dtype` its ONNX dtype translated through the
type-mapping table; otherwise log an error and `return` (Python `None`). -/
def get_weights_from_const_node (node : Node) : Except PyErr (Option RnnWeight) := do
  let temp ← follow_identity node
  if temp.type = "Const" then
    let val ← temp.get_tensor_value
    let dtype ← onnxToNumpyDtype temp.dtypeCode
    return some ⟨node, val, dtype⟩
  else
    return none

/-- Embeds `check_is_unfolded_perm(perm_node)`, the permutation-literal heuristic.
For a `ConcatV2` with exactly three inputs it first compares the first
tensor value of the first input with `[1, 0]`; if equal, it reads the tensor values of
the first three inputs of the second operand and only then tests that the
second operand is a `Range` with start `[2]`, limit `[3]`, delta `[1]`. -/
def check_is_unfolded_perm (perm_node : Node) : Except PyErr Bool := do
  if perm_node.type = "ConcatV2" ∧ perm_node.inputs.length = 3 then
    let first ← perm_node.getInput 0
    let const_node_val ← first.get_tensor_value
    if const_node_val ≠ [1, 0] then
      return false
    else
      let range_node ← perm_node.getInput 1
      let r0 ← range_node.getInput 0
      let range_start ← r0.get_tensor_value
      let r1 ← range_node.getInput 1
      let range_limit ← r1.get_tensor_value
      let r2 ← range_node.getInput 2
      let range_delta ← r2.get_tensor_value
      if range_node.type = "Range" ∧ range_start = [2] ∧ range_limit = [3] ∧
          range_delta = [1] then
        return true
      else
        return false
  else
    return false

/-- State produced by `RnnInitializers.__init__(c_init, h_init, c_h_shared_init)`.
`share_init_node` is set to `True`/`False` in both branches, so it is a
`Bool` here. -/
structure RnnInitializers where
  c_init_input_id : Option String
  h_init_input_id : Option String
  share_init_node : Bool
  share_init_input_id : Option String
deriving DecidableEq, Repr

/-- Python truthiness of an optional input-id string: `None` and the empty
string are falsy (`if c_h_shared_init:`). -/
def pyTruthy : Option String → Bool
  | none => false
  | some s => s ≠ ""

/-- Embeds `RnnInitializers.__init__`: all four fields start at `None`; if the
shared initializer is truthy it is stored and `share_init_node` becomes
true, otherwise the split cell/hidden initializers are stored and
`share_init_node` becomes false. -/
def RnnInitializers.init (c_init h_init c_h_shared_init : Option String) :
    RnnInitializers :=
  if pyTruthy c_h_shared_init then
    { c_init_input_id := none, h_init_input_id := none,
      share_init_node := true, share_init_input_id := c_h_shared_init }
  else
    { c_init_input_id := c_init, h_init_input_id := h_init,
      share_init_node := false, share_init_input_id := none }

/-- Embeds `OpTypePattern(op, name=..., inputs=[...])`: a pattern-tree node with its
operation-type matcher string (possibly an `A|B` alternation or the `*`
wildcard), an optional capture name, and the ordered child patterns. -/
inductive OpTypePattern where
  | mk (op : String) (name : Option String) (inputs : List OpTypePattern) :
      OpTypePattern

/-- Operation-type matcher string of the pattern node. -/
def OpTypePattern.op : OpTypePattern → String
  | .mk o _ _ => o

/-- Optional capture name of the pattern node. -/
def OpTypePattern.name : OpTypePattern → Option String
  | .mk _ nm _ => nm

/-- Ordered child patterns of the pattern node. -/
def OpTypePattern.inputs : OpTypePattern → List OpTypePattern
  | .mk _ _ ins => ins

/-- The shared concatenated-input sub-pattern `xc_pattern`: a `Split` of a
`BiasAdd` of a `MatMul` over a `Concat/ConcatV2` captured as `xh`, with
`Enter`-wrapped wildcard captures `cell_kernel` and `cell_bias`. -/
def xc_pattern : OpTypePattern :=
  .mk "Split" none [
    .mk "Const" none [],
    .mk "BiasAdd" (some "bias_add") [
      .mk "MatMul" none [
        .mk "ConcatV2|Concat" (some "xh") [],
        .mk "Enter" none [
          .mk "*" (some "cell_kernel") []]],
      .mk "Enter" none [
        .mk "*" (some "cell_bias") []]]]

/-- The LSTM-cell pattern tree `lstmcell_pattern`, rooted at a `Mul` captured
as `ht`, with the four gate sub-patterns `ot`, `ft`, `it`, `gt`, each built
over the shared `xc_pattern` object. -/
def lstmcell_pattern : OpTypePattern :=
  .mk "Mul" (some "ht") [
    .mk "Sigmoid" (some "ot") [xc_pattern],
    .mk "Tanh" none [
      .mk "Add" (some "ct") [
        .mk "Mul" none [
          .mk "Sigmoid" (some "ft") [
            .mk "Add" none [
              xc_pattern,
              .mk "*" (some "ft_bias") []]],
          .mk "*" none []],
        .mk "Mul" none [
          .mk "Sigmoid" (some "it") [xc_pattern],
          .mk "Tanh" (some "gt") [xc_pattern]]]]]

/-- The RNN cell unit types of the pattern table. -/
inductive RNNUnitType where
  | LSTMCell : RNNUnitType
  | GRUCell : RNNUnitType
deriving DecidableEq, Repr

/-- The pattern table `rnn_cell_patterns`: the LSTM cell maps to
`lstmcell_pattern`, the GRU cell entry is `None`. -/
def rnn_cell_patterns : RNNUnitType → Option OpTypePattern
  | .LSTMCell => some lstmcell_pattern
  | .GRUCell => none

/-- Embeds `get_pattern(cell_type_name)`: look up the pattern table. -/
def get_pattern (cell_type_name : RNNUnitType) : Option OpTypePattern :=
  rnn_cell_patterns cell_type_name

/-- The body of the only GRU test,
`GRUTests.test_test_single_dynamic_gru_state_is_tuple` in
`tests/test_gru.py`: it unconditionally raises
`ValueError("Not implemented")`. -/
def test_test_single_dynamic_gru_state_is_tuple : Except PyErr Unit :=
  .error (.valueError "Not implemented")

/-- Embeds `check_is_timemajor_transpose(node)`: Python returns `None` (falsy) for a
non-Transpose node and for a Transpose whose constant permutation differs
from `[1, 0, 2]`; returns `True` for the constant `[1, 0, 2]` permutation and
for the unfolded-permutation heuristic; raises `ValueError("Not supported
yet")` when the permutation is neither constant nor recognized. -/
def check_is_timemajor_transpose (node : Node) : Except PyErr (Option Bool) := do
  if node.type ≠ "Transpose" then
    return none
  else
    let perm_node ← node.getInput 1
    if perm_node.is_const then
      let v ← (← node.getInput 1).get_tensor_value
      if v = [1, 0, 2] then
        return some true
      else
        return none
    else
      if (← check_is_unfolded_perm perm_node) then
        return some true
      else
        throw (.valueError "Not supported yet")

/-! ## Helper lemmas for the `Except` monad -/

theorem exc_bind_ok {ε α β : Type} (a : α) (f : α → Except ε β) :
    (Except.ok a >>= f : Except ε β) = f a := rfl

theorem exc_bind_err {ε α β : Type} (e : ε) (f : α → Except ε β) :
    ((Except.error e : Except ε α) >>= f) = Except.error e := rfl

theorem exc_pure {ε α : Type} (a : α) :
    (pure a : Except ε α) = Except.ok a := rfl

/-! ## Claims -/

/-- C1, counterexample: for the Transpose node whose permutation input is the
constant `[0, 2, 1]` (a constant differing from `[1, 0, 2]`),
`check_is_timemajor_transpose` does NOT fail: it silently returns `None`
(falsy, i.e. batch-major), contradicting the claim that a constant
permutation different from `[1, 0, 2]` produces an explicit "unsupported
permutation" error. -/
theorem C1_counterexample :
    (Node.mk "Const" "perm" [] (some [0, 2, 1]) 6).is_const = true ∧
    ([(0 : ℤ), 2, 1] ≠ [1, 0, 2]) ∧
    check_is_timemajor_transpose
      (Node.mk "Transpose" "t"
        [Node.mk "Placeholder" "x" [] none 1,
         Node.mk "Const" "perm" [] (some [0, 2, 1]) 6] none 1) =
      Except.ok none :=
  ⟨rfl, by decide, rfl⟩

/-- C1, amended: for every Transpose node whose permutation input is a
constant whose value differs from `[1, 0, 2]`, the time-major check
`check_is_timemajor_transpose` silently returns `None` (falsy, treated as
batch-major by the caller); it raises no error on this branch. -/
theorem C1_const_perm_mismatch_is_silent (node p : Node) (v : List ℤ)
    (hT : node.type = "Transpose")
    (hp : node.getInput 1 = Except.ok p)
    (hc : p.is_const = true)
    (hv : p.get_tensor_value = Except.ok v)
    (hne : v ≠ [1, 0, 2]) :
    check_is_timemajor_transpose node = Except.ok none := by
  unfold check_is_timemajor_transpose
  rw [hT]
  simp only [ne_eq, not_true_eq_false, if_false, hp, exc_bind_ok, hc, if_true, hv, hne,
    exc_pure]

/-- C1, witness for the amended theorem at the concrete counterexample
node. -/
theorem C1_amended_witness :
    check_is_timemajor_transpose
      (Node.mk "Transpose" "t"
        [Node.mk "Placeholder" "x" [] none 1,
         Node.mk "Const" "perm" [] (some [0, 2, 1]) 6] none 1) =
      Except.ok none :=
  C1_const_perm_mismatch_is_silent _ _ [0, 2, 1] rfl rfl rfl rfl (by decide)

/-- C7: the GRU-cell entry of the pattern table has no body — `get_pattern`
on `GRUCell` returns `None` while on `LSTMCell` it returns the LSTM-cell
pattern — and the only GRU test unconditionally raises (an explicitly
failing placeholder). -/
theorem C7_gru_pattern_absent :
    get_pattern RNNUnitType.GRUCell = none ∧
    get_pattern RNNUnitType.LSTMCell = some lstmcell_pattern ∧
    test_test_single_dynamic_gru_state_is_tuple =
      Except.error (PyErr.valueError "Not implemented") :=
  ⟨rfl, rfl, rfl⟩

/-- C9: every freshly constructed `RnnInitializers` populates exactly one
initial-state form: when the shared initializer argument is given (truthy),
`share_init_node` is true, `share_init_input_id` holds it and the split
fields are `None`; otherwise `share_init_node` is false,
`share_init_input_id` is `None` and the split fields hold the given
cell/hidden initializers. -/
theorem C9_initializers_invariant (c h sh : Option String) :
    (RnnInitializers.init c h sh).share_init_node = pyTruthy sh ∧
    (RnnInitializers.init c h sh).share_init_input_id =
      (if pyTruthy sh then sh else none) ∧
    (RnnInitializers.init c h sh).c_init_input_id =
      (if pyTruthy sh then none else c) ∧
    (RnnInitializers.init c h sh).h_init_input_id =
      (if pyTruthy sh then none else h) := by
  unfold RnnInitializers.init
  by_cases hp : pyTruthy sh <;> simp [hp]

/-- C5: `check_is_timemajor_transpose` returns `True` exactly when the node
is a Transpose whose permutation input is a constant equal to `[1, 0, 2]` or
(not constant and) recognized by the unfolded-permutation heuristic; every
non-Transpose node yields the falsy `None` (batch-major). -/
theorem C5_timemajor_iff (node : Node) :
    (node.type ≠ "Transpose" → check_is_timemajor_transpose node = Except.ok none) ∧
    (check_is_timemajor_transpose node = Except.ok (some true) ↔
      node.type = "Transpose" ∧ ∃ p, node.getInput 1 = Except.ok p ∧
        ((p.is_const = true ∧ p.get_tensor_value = Except.ok [1, 0, 2]) ∨
         (p.is_const = false ∧ check_is_unfolded_perm p = Except.ok true))) := by
  constructor
  · intro hT
    unfold check_is_timemajor_transpose
    simp [hT, exc_pure]
  · by_cases hT : node.type = "Transpose"
    · unfold check_is_timemajor_transpose
      rw [hT]
      simp only [ne_eq, not_true_eq_false, if_false, hT, true_and]
      cases hp : node.getInput 1 with
      | error e => simp [exc_bind_err]
      | ok p =>
        rw [exc_bind_ok]
        by_cases hc : p.is_const
        · simp only [hc, if_true]
          cases hv : p.get_tensor_value with
          | error e => simp [exc_bind_ok, exc_bind_err, hv, hc]
          | ok v =>
            rw [exc_bind_ok, hv, exc_bind_ok]
            by_cases hveq : v = [1, 0, 2]
            · subst hveq
              simp [exc_pure, hc, hv]
            · simp [hveq, exc_pure, hc, hv]
        · simp only [Bool.not_eq_true] at hc
          simp only [hc, Bool.false_eq_true, if_false]
          cases hu : check_is_unfolded_perm p with
          | error e => simp [exc_bind_err, hc, hu]
          | ok b =>
            rw [exc_bind_ok]
            cases b
            · simp [hc, hu]
            · simp [exc_pure, hc, hu]
    · unfold check_is_timemajor_transpose
      simp [hT, exc_pure]

/-- C5, witness: a non-Transpose node yields the falsy `None`. -/
theorem C5_timemajor_iff_witness :
    check_is_timemajor_transpose (Node.mk "Placeholder" "x" [] none 1) =
      Except.ok none :=
  (C5_timemajor_iff (Node.mk "Placeholder" "x" [] none 1)).1 (by decide)

/-- C2: a concatenation (`ConcatV2`, three inputs) whose first operand is a
constant equal to `[1, 0]` and whose second operand is a `Range` with start
`2`, limit `3`, step `1` is accepted by `check_is_unfolded_perm`, and any
Transpose node whose permutation input is that concatenation is asserted
time-major (`True`) by `check_is_timemajor_transpose`. -/
theorem C2_unfolded_perm_accepted (pn c r s0 s1 s2 : Node)
    (hty : pn.type = "ConcatV2") (hlen : pn.inputs.length = 3)
    (h0 : pn.getInput 0 = Except.ok c)
    (hcv : c.get_tensor_value = Except.ok [1, 0])
    (h1 : pn.getInput 1 = Except.ok r) (hrty : r.type = "Range")
    (hr0 : r.getInput 0 = Except.ok s0)
    (hs : s0.get_tensor_value = Except.ok [2])
    (hr1 : r.getInput 1 = Except.ok s1)
    (hl : s1.get_tensor_value = Except.ok [3])
    (hr2 : r.getInput 2 = Except.ok s2)
    (hd : s2.get_tensor_value = Except.ok [1]) :
    check_is_unfolded_perm pn = Except.ok true ∧
    ∀ t : Node, t.type = "Transpose" → t.getInput 1 = Except.ok pn →
      check_is_timemajor_transpose t = Except.ok (some true) := by
  have hun : check_is_unfolded_perm pn = Except.ok true := by
    unfold check_is_unfolded_perm
    rw [hty, hlen]
    simp only [and_self, if_true]
    rw [h0, exc_bind_ok, hcv, exc_bind_ok]
    simp only [ne_eq, not_true_eq_false, if_false]
    rw [h1, exc_bind_ok, hr0, exc_bind_ok, hs, exc_bind_ok, hr1, exc_bind_ok,
      hl, exc_bind_ok, hr2, exc_bind_ok, hd, exc_bind_ok, hrty]
    simp [exc_pure]
  refine ⟨hun, fun t htT htp => ?_⟩
  have hnc : pn.is_const = false := by
    unfold Node.is_const
    rw [hty]
    rfl
  unfold check_is_timemajor_transpose
  rw [htT]
  simp only [ne_eq, not_true_eq_false, if_false]
  rw [htp, exc_bind_ok, hnc]
  simp only [Bool.false_eq_true, if_false]
  rw [hun, exc_bind_ok]
  simp [exc_pure]

/-- C2, witness: the concrete `ConcatV2([1,0], Range(2,3,1), axis)`
permutation and a Transpose over it. -/
theorem C2_unfolded_perm_accepted_witness :
    check_is_unfolded_perm
      (Node.mk "ConcatV2" "c"
        [Node.mk "Const" "pfx" [] (some [1, 0]) 6,
         Node.mk "Range" "r"
           [Node.mk "Const" "s" [] (some [2]) 6,
            Node.mk "Const" "l" [] (some [3]) 6,
            Node.mk "Const" "d" [] (some [1]) 6] none 6,
         Node.mk "Const" "axis" [] (some [0]) 6] none 6) = Except.ok true ∧
    check_is_timemajor_transpose
      (Node.mk "Transpose" "t"
        [Node.mk "Placeholder" "x" [] none 1,
         Node.mk "ConcatV2" "c"
           [Node.mk "Const" "pfx" [] (some [1, 0]) 6,
            Node.mk "Range" "r"
              [Node.mk "Const" "s" [] (some [2]) 6,
               Node.mk "Const" "l" [] (some [3]) 6,
               Node.mk "Const" "d" [] (some [1]) 6] none 6,
            Node.mk "Const" "axis" [] (some [0]) 6] none 6] none 1) =
      Except.ok (some true) := by
  have h := C2_unfolded_perm_accepted
    (Node.mk "ConcatV2" "c"
      [Node.mk "Const" "pfx" [] (some [1, 0]) 6,
       Node.mk "Range" "r"
         [Node.mk "Const" "s" [] (some [2]) 6,
          Node.mk "Const" "l" [] (some [3]) 6,
          Node.mk "Const" "d" [] (some [1]) 6] none 6,
       Node.mk "Const" "axis" [] (some [0]) 6] none 6)
    (Node.mk "Const" "pfx" [] (some [1, 0]) 6)
    (Node.mk "Range" "r"
      [Node.mk "Const" "s" [] (some [2]) 6,
       Node.mk "Const" "l" [] (some [3]) 6,
       Node.mk "Const" "d" [] (some [1]) 6] none 6)
    (Node.mk "Const" "s" [] (some [2]) 6)
    (Node.mk "Const" "l" [] (some [3]) 6)
    (Node.mk "Const" "d" [] (some [1]) 6)
    rfl rfl rfl rfl rfl rfl rfl rfl rfl rfl rfl rfl
  exact ⟨h.1, h.2 _ rfl rfl⟩

/-- C3: a Transpose whose permutation input is not a constant and is rejected
(`False`) by the unfolded-permutation heuristic makes
`check_is_timemajor_transpose` raise the explicit
`ValueError("Not supported yet")` instead of returning a result; in
particular this covers a concatenation of constant `[1, 0]` with a
`Range(0, 5, 1)` node. -/
theorem C3_unrecognized_perm_raises (node pn : Node)
    (hT : node.type = "Transpose")
    (hp : node.getInput 1 = Except.ok pn)
    (hnc : pn.is_const = false)
    (hu : check_is_unfolded_perm pn = Except.ok false) :
    check_is_timemajor_transpose node =
      Except.error (PyErr.valueError "Not supported yet") := by
  unfold check_is_timemajor_transpose
  rw [hT]
  simp only [ne_eq, not_true_eq_false, if_false]
  rw [hp, exc_bind_ok, hnc]
  simp only [Bool.false_eq_true, if_false]
  rw [hu, exc_bind_ok]
  rfl

/-- C3, witness: at a Transpose whose permutation is the concatenation of
constant `[1, 0]` with `Range(0, 5, 1)`, the check raises
`ValueError("Not supported yet")`. -/
theorem C3_unrecognized_perm_raises_witness :
    check_is_timemajor_transpose
      (Node.mk "Transpose" "t"
        [Node.mk "Placeholder" "x" [] none 1,
         Node.mk "ConcatV2" "c"
           [Node.mk "Const" "pfx" [] (some [1, 0]) 6,
            Node.mk "Range" "r"
              [Node.mk "Const" "s" [] (some [0]) 6,
               Node.mk "Const" "l" [] (some [5]) 6,
               Node.mk "Const" "d" [] (some [1]) 6] none 6,
            Node.mk "Const" "axis" [] (some [0]) 6] none 6] none 1) =
      Except.error (PyErr.valueError "Not supported yet") :=
  C3_unrecognized_perm_raises _
    (Node.mk "ConcatV2" "c"
      [Node.mk "Const" "pfx" [] (some [1, 0]) 6,
       Node.mk "Range" "r"
         [Node.mk "Const" "s" [] (some [0]) 6,
          Node.mk "Const" "l" [] (some [5]) 6,
          Node.mk "Const" "d" [] (some [1]) 6] none 6,
       Node.mk "Const" "axis" [] (some [0]) 6] none 6)
    rfl rfl rfl rfl

/-- C4: the constant resolver follows the Identity chain to the first
non-Identity producer (the chain-following equations are stated first); if
that producer is a `Const` whose tensor and dtype translation are available,
it returns the tensor value with the dtype translated through the fixed
type-mapping table; for any non-`Const` producer it returns the non-fatal
`None` (logged as an error by the code, treated as a skip by the caller). -/
theorem C4_const_resolution (node : Node) :
    (node.type ≠ "Identity" → follow_identity node = Except.ok node) ∧
    (∀ i rest, node.type = "Identity" → node.inputs = i :: rest →
      follow_identity node = follow_identity i) ∧
    (∀ temp, follow_identity node = Except.ok temp →
      (∀ v d, temp.type = "Const" → temp.get_tensor_value = Except.ok v →
        onnxToNumpyDtype temp.dtypeCode = Except.ok d →
        get_weights_from_const_node node = Except.ok (some ⟨node, v, d⟩)) ∧
      (temp.type ≠ "Const" →
        get_weights_from_const_node node = Except.ok none)) := by
  refine ⟨?_, ?_, ?_⟩
  · intro h
    obtain ⟨t, nm, ins, tv, d⟩ := node
    simp only [Node.type] at h
    unfold follow_identity
    rw [if_neg h]
  · intro i rest hid hins
    obtain ⟨t, nm, ins, tv, d⟩ := node
    simp only [Node.type] at hid
    simp only [Node.inputs] at hins
    subst hid
    subst hins
    rfl
  · intro temp hft
    constructor
    · intro v d htyC hv hd
      unfold get_weights_from_const_node
      rw [hft, exc_bind_ok, htyC]
      simp only [if_true]
      rw [hv, exc_bind_ok, hd, exc_bind_ok]
      rfl
    · intro htyN
      unfold get_weights_from_const_node
      rw [hft, exc_bind_ok, if_neg htyN]
      rfl

/-- C4, witness: a chain of three Identity nodes ending in the constant
tensor `[1, 2, 3]` of ONNX dtype code 1 resolves to that tensor with numpy
dtype `float32`, wrapped around the original head node. -/
theorem C4_const_resolution_witness :
    get_weights_from_const_node
      (Node.mk "Identity" "i3"
        [Node.mk "Identity" "i2"
          [Node.mk "Identity" "i1"
            [Node.mk "Const" "w" [] (some [1, 2, 3]) 1] none 1] none 1] none 1) =
      Except.ok (some
        ⟨Node.mk "Identity" "i3"
          [Node.mk "Identity" "i2"
            [Node.mk "Identity" "i1"
              [Node.mk "Const" "w" [] (some [1, 2, 3]) 1] none 1] none 1] none 1,
         [1, 2, 3], "float32"⟩) :=
  ((C4_const_resolution
      (Node.mk "Identity" "i3"
        [Node.mk "Identity" "i2"
          [Node.mk "Identity" "i1"
            [Node.mk "Const" "w" [] (some [1, 2, 3]) 1] none 1] none 1]
        none 1)).2.2
    (Node.mk "Const" "w" [] (some [1, 2, 3]) 1) rfl).1
    [1, 2, 3] "float32" rfl rfl rfl

/-- C10: on success, `get_weights_from_const_node` wraps the ORIGINAL head
node of the Identity chain in the returned `RnnWeight`, while the value and
dtype come from the `Const` producer found at the end of the chain. -/
theorem C10_weight_keeps_original_node (node : Node) (w : RnnWeight)
    (h : get_weights_from_const_node node = Except.ok (some w)) :
    w.node = node ∧ ∃ temp, follow_identity node = Except.ok temp ∧
      temp.type = "Const" ∧ temp.get_tensor_value = Except.ok w.value ∧
      onnxToNumpyDtype temp.dtypeCode = Except.ok w.dtype := by
  unfold get_weights_from_const_node at h
  cases hft : follow_identity node with
  | error e => rw [hft, exc_bind_err] at h; exact Except.noConfusion h
  | ok temp =>
    rw [hft, exc_bind_ok] at h
    by_cases hty : temp.type = "Const"
    · rw [if_pos hty] at h
      cases hv : temp.get_tensor_value with
      | error e => rw [hv, exc_bind_err] at h; exact Except.noConfusion h
      | ok v =>
        rw [hv, exc_bind_ok] at h
        cases hd : onnxToNumpyDtype temp.dtypeCode with
        | error e => rw [hd, exc_bind_err] at h; exact Except.noConfusion h
        | ok d =>
          rw [hd, exc_bind_ok, exc_pure] at h
          simp only [Except.ok.injEq, Option.some.injEq] at h
          subst h
          exact ⟨rfl, temp, rfl, hty, hv, hd⟩
    · rw [if_neg hty, exc_pure] at h
      simp only [Except.ok.injEq] at h
      exact Option.noConfusion h

/-- C10, witness: a single Identity over a `Const` yields an `RnnWeight`
whose node field is the Identity head, not the `Const` producer. -/
theorem C10_weight_keeps_original_node_witness :
    (RnnWeight.mk
      (Node.mk "Identity" "i1"
        [Node.mk "Const" "w" [] (some [1, 2, 3]) 1] none 1) [1, 2, 3]
      "float32").node =
      Node.mk "Identity" "i1"
        [Node.mk "Const" "w" [] (some [1, 2, 3]) 1] none 1 ∧
    ∃ temp, follow_identity
        (Node.mk "Identity" "i1"
          [Node.mk "Const" "w" [] (some [1, 2, 3]) 1] none 1) =
        Except.ok temp ∧
      temp.type = "Const" ∧
      temp.get_tensor_value = Except.ok
        (RnnWeight.mk
          (Node.mk "Identity" "i1"
            [Node.mk "Const" "w" [] (some [1, 2, 3]) 1] none 1) [1, 2, 3]
          "float32").value ∧
      onnxToNumpyDtype temp.dtypeCode = Except.ok
        (RnnWeight.mk
          (Node.mk "Identity" "i1"
            [Node.mk "Const" "w" [] (some [1, 2, 3]) 1] none 1) [1, 2, 3]
          "float32").dtype :=
  C10_weight_keeps_original_node _ _ rfl

/-- Walk a pattern tree along a path of child indices. -/
def patternAt : OpTypePattern → List Nat → Option OpTypePattern
  | p, [] => some p
  | p, i :: is =>
    match p.inputs.get? i with
    | some c => patternAt c is
    | none => none

/-- C6: the LSTM-cell pattern tree is rooted at a `Mul` captured as `ht` and
contains the four gate sub-patterns `ot` (output), `ft` (forget), `it`
(input) and `gt` (cell candidate), each built over the one shared
concatenated-input sub-pattern `xc_pattern` (a `Split` of a `BiasAdd` of a
`MatMul` over a `Concat/ConcatV2` captured as `xh`, with `Enter`-wrapped
wildcard captures `cell_kernel` and `cell_bias`), the identical pattern
object at every occurrence. -/
theorem C6_lstm_pattern_structure :
    lstmcell_pattern.op = "Mul" ∧ lstmcell_pattern.name = some "ht" ∧
    (∃ ot, patternAt lstmcell_pattern [0] = some ot ∧
      ot.op = "Sigmoid" ∧ ot.name = some "ot" ∧ ot.inputs = [xc_pattern]) ∧
    (∃ ft, patternAt lstmcell_pattern [1, 0, 0, 0] = some ft ∧
      ft.op = "Sigmoid" ∧ ft.name = some "ft" ∧
      ∃ a, ft.inputs = [a] ∧ a.op = "Add" ∧
        a.inputs.get? 0 = some xc_pattern) ∧
    (∃ it, patternAt lstmcell_pattern [1, 0, 1, 0] = some it ∧
      it.op = "Sigmoid" ∧ it.name = some "it" ∧ it.inputs = [xc_pattern]) ∧
    (∃ gt, patternAt lstmcell_pattern [1, 0, 1, 1] = some gt ∧
      gt.op = "Tanh" ∧ gt.name = some "gt" ∧ gt.inputs = [xc_pattern]) ∧
    xc_pattern.op = "Split" ∧ xc_pattern.name = none ∧
    (∃ ba, patternAt xc_pattern [1] = some ba ∧
      ba.op = "BiasAdd" ∧ ba.name = some "bias_add") ∧
    (∃ xh, patternAt xc_pattern [1, 0, 0] = some xh ∧
      xh.op = "ConcatV2|Concat" ∧ xh.name = some "xh" ∧ xh.inputs = []) ∧
    (∃ ck, patternAt xc_pattern [1, 0, 1] = some ck ∧ ck.op = "Enter" ∧
      ∃ w, ck.inputs = [w] ∧ w.op = "*" ∧ w.name = some "cell_kernel") ∧
    (∃ cb, patternAt xc_pattern [1, 1] = some cb ∧ cb.op = "Enter" ∧
      ∃ w, cb.inputs = [w] ∧ w.op = "*" ∧ w.name = some "cell_bias") :=
  ⟨rfl, rfl,
   ⟨_, rfl, rfl, rfl, rfl⟩,
   ⟨_, rfl, rfl, rfl, _, rfl, rfl, rfl⟩,
   ⟨_, rfl, rfl, rfl, rfl⟩,
   ⟨_, rfl, rfl, rfl, rfl⟩,
   rfl, rfl,
   ⟨_, rfl, rfl, rfl⟩,
   ⟨_, rfl, rfl, rfl, rfl⟩,
   ⟨_, rfl, rfl, _, rfl, rfl, rfl⟩,
   ⟨_, rfl, rfl, _, rfl, rfl, rfl⟩⟩

/-- Does the node have at least three inputs, the first three all bearing
constant tensor values?  (The shape `check_is_unfolded_perm` dereferences
without checking.) -/
def hasThreeConstValuedInputs (r : Node) : Bool :=
  match r.inputs with
  | a :: b :: c :: _ => a.tensor.isSome && b.tensor.isSome && c.tensor.isSome
  | _ => false

/-- C8: `check_is_unfolded_perm` is not total on structurally arbitrary
graphs: for a `ConcatV2` node with exactly three inputs where the first input
has constant value `[1, 0]`, the function dereferences the first three
inputs of the second operand and their tensor values before checking that
the second operand is a `Range`, so it raises (rather than returning
`False`) whenever that second operand is not a producer with three
constant-valued inputs. -/
theorem C8_heuristic_not_total (pn r c : Node)
    (hty : pn.type = "ConcatV2") (hlen : pn.inputs.length = 3)
    (h0 : pn.getInput 0 = Except.ok c)
    (hcv : c.get_tensor_value = Except.ok [1, 0])
    (h1 : pn.getInput 1 = Except.ok r)
    (hbad : hasThreeConstValuedInputs r = false) :
    ∃ e, check_is_unfolded_perm pn = Except.error e := by
  unfold check_is_unfolded_perm
  rw [hty, hlen]
  simp only [and_self, if_true]
  rw [h0, exc_bind_ok, hcv, exc_bind_ok]
  simp only [ne_eq, not_true_eq_false, if_false]
  rw [h1, exc_bind_ok]
  unfold hasThreeConstValuedInputs at hbad
  obtain ⟨t, nm, ins, tv, d⟩ := r
  simp only [Node.inputs] at hbad
  match ins, hbad with
  | [], _ =>
    exact ⟨.indexError, rfl⟩
  | [a], _ =>
    cases ha : a.tensor with
    | none =>
      refine ⟨.tensorError, ?_⟩
      simp [Node.getInput, Node.inputs, Node.get_tensor_value, ha, exc_bind_ok,
        exc_bind_err]
    | some va =>
      refine ⟨.indexError, ?_⟩
      simp [Node.getInput, Node.inputs, Node.get_tensor_value, ha, exc_bind_ok,
        exc_bind_err]
  | [a, b], _ =>
    cases ha : a.tensor with
    | none =>
      refine ⟨.tensorError, ?_⟩
      simp [Node.getInput, Node.inputs, Node.get_tensor_value, ha, exc_bind_ok,
        exc_bind_err]
    | some va =>
      cases hb : b.tensor with
      | none =>
        refine ⟨.tensorError, ?_⟩
        simp [Node.getInput, Node.inputs, Node.get_tensor_value, ha, hb,
          exc_bind_ok, exc_bind_err]
      | some vb =>
        refine ⟨.indexError, ?_⟩
        simp [Node.getInput, Node.inputs, Node.get_tensor_value, ha, hb,
          exc_bind_ok, exc_bind_err]
  | a :: b :: cc :: rest, hbad =>
    cases ha : a.tensor with
    | none =>
      refine ⟨.tensorError, ?_⟩
      simp [Node.getInput, Node.inputs, Node.get_tensor_value, ha, exc_bind_ok,
        exc_bind_err]
    | some va =>
      cases hb : b.tensor with
      | none =>
        refine ⟨.tensorError, ?_⟩
        simp [Node.getInput, Node.inputs, Node.get_tensor_value, ha, hb,
          exc_bind_ok, exc_bind_err]
      | some vb =>
        cases hc : cc.tensor with
        | none =>
          refine ⟨.tensorError, ?_⟩
          simp [Node.getInput, Node.inputs, Node.get_tensor_value, ha, hb, hc,
            exc_bind_ok, exc_bind_err]
        | some vc =>
          replace hbad :
              (a.tensor.isSome && b.tensor.isSome && cc.tensor.isSome) = false :=
            hbad
          rw [ha, hb, hc] at hbad
          simp at hbad

/-- C8, witness: the second operand is a `Placeholder` with no inputs at
all, so the heuristic raises instead of returning `False`. -/
theorem C8_heuristic_not_total_witness :
    ∃ e, check_is_unfolded_perm
      (Node.mk "ConcatV2" "c"
        [Node.mk "Const" "pfx" [] (some [1, 0]) 6,
         Node.mk "Placeholder" "q" [] none 6,
         Node.mk "Const" "axis" [] (some [0]) 6] none 6) = Except.error e :=
  C8_heuristic_not_total
    (Node.mk "ConcatV2" "c"
      [Node.mk "Const" "pfx" [] (some [1, 0]) 6,
       Node.mk "Placeholder" "q" [] none 6,
       Node.mk "Const" "axis" [] (some [0]) 6] none 6)
    (Node.mk "Placeholder" "q" [] none 6)
    (Node.mk "Const" "pfx" [] (some [1, 0]) 6)
    rfl rfl rfl rfl rfl rfl
